import Mathlib

/-!
Shallow embedding of `src/grid_coverage_planner/core/grid_map.py`.

Python `int` values are modelled as `Int`, `float` values as `ℚ` (exact
arithmetic; every concrete input used below is exactly representable as a
binary float, so the evaluations agree with the Python program).  The
`numpy` `uint8` grid array is modelled as a `List (List Nat)` of cell
values; the stored values are always `CellType` values `0/1/2`, far below
256, so the `uint8` wrap-around can never trigger.  Fallible operations
return `Except Err _`; each `raise` site of the source is mapped to the
error kind the spec assigns to it (the Python code raises `ValueError`
with a distinguishing message, plus `TypeError`/`IndexError` coming from
the runtime and from numpy).
-/

namespace GridPlanner

/-- Error kinds, following §7 of the spec.  `typeError` and `indexError`
model the Python runtime's `TypeError` and numpy's `IndexError`, which are
not spec error kinds but can be raised by the source code. -/
inductive Err where
  | invalidArgument
  | outOfBounds
  | invalidState
  | alreadyExists
  | notFound
  | typeError
  | indexError
  deriving DecidableEq, Repr

/-- `CellType(IntEnum)` from the source: NON_TRAVERSABLE = 0,
TRAVERSABLE = 1, CUTTABLE = 2. -/
inductive CellType where
  | NON_TRAVERSABLE
  | TRAVERSABLE
  | CUTTABLE
  deriving DecidableEq, Repr

/-- The `.value` of the `IntEnum` member. -/
def CellType.value : CellType → Nat
  | .NON_TRAVERSABLE => 0
  | .TRAVERSABLE => 1
  | .CUTTABLE => 2

/-- `self.metadata`: the dict built in `__init__` with keys
`name`, `description`, `resolution`, `origin`. -/
structure Metadata where
  name : String
  description : String
  resolution : ℚ
  origin : ℚ × ℚ
  deriving DecidableEq, Repr

/-- The `GridMap` instance state: the fields assigned in `__init__`. -/
structure GridMap where
  rows : Int
  cols : Int
  resolution : ℚ
  origin : ℚ × ℚ
  data : List (List Nat)
  metadata : Metadata
  deriving DecidableEq, Repr

/-- `GridMap.__init__` (spec name `new`): validates
`rows <= 0 or cols <= 0`, then `resolution <= 0`, then fills a
`rows × cols` array with `default_cell_type.value` (`np.full`).
The origin tuple-shape check of the source is statically satisfied here
because `origin` is typed as a pair. -/
def GridMap.new (rows cols : Int) (resolution : ℚ) (origin : ℚ × ℚ)
    (default_cell_type : CellType) : Except Err GridMap :=
  if rows ≤ 0 ∨ cols ≤ 0 then
    .error .invalidArgument
  else if resolution ≤ 0 then
    .error .invalidArgument
  else
    .ok {
      rows := rows
      cols := cols
      resolution := resolution
      origin := origin
      data := List.replicate rows.toNat (List.replicate cols.toNat default_cell_type.value)
      metadata := {
        name := ""
        description := ""
        resolution := resolution
        origin := origin
      }
    }

/-- `is_valid_position`: `0 <= row < self.rows and 0 <= col < self.cols`. -/
def GridMap.is_valid_position (g : GridMap) (row col : Int) : Bool :=
  0 ≤ row && row < g.rows && 0 ≤ col && col < g.cols

/-- Direct read of `self.data[row, col]` at a position already known to be
valid (both indices non-negative and within shape). -/
def GridMap.dataAt (g : GridMap) (row col : Int) : Nat :=
  (g.data.getD row.toNat []).getD col.toNat 0

/-- Numpy basic indexing `self.data[row, col]` *without* a prior bounds
check: numpy accepts indices in `[-n, n)` per axis, wrapping a negative
index `i` to `i + n`, and raises `IndexError` outside that range.  For an
in-range index the wrapped value equals `i mod n` (`Int.emod` is
non-negative for a positive modulus). -/
def GridMap.npGet (g : GridMap) (row col : Int) : Except Err Nat :=
  if -g.rows ≤ row ∧ row < g.rows ∧ -g.cols ≤ col ∧ col < g.cols then
    .ok (g.dataAt (row.emod g.rows) (col.emod g.cols))
  else
    .error .indexError

/-- `get_cell`: bounds-checked read; raises on invalid position.  The
source returns the raw `np.uint8` array entry (not re-wrapped in
`CellType`), so the model returns the stored value. -/
def GridMap.get_cell (g : GridMap) (row col : Int) : Except Err Nat :=
  if g.is_valid_position row col then
    .ok (g.dataAt row col)
  else
    .error .outOfBounds

/-- `set_cell`: bounds-checked write of `cell_type.value`. -/
def GridMap.set_cell (g : GridMap) (row col : Int) (cell_type : CellType) :
    Except Err GridMap :=
  if g.is_valid_position row col then
    .ok { g with
      data := g.data.set row.toNat
        ((g.data.getD row.toNat []).set col.toNat cell_type.value) }
  else
    .error .outOfBounds

/-- `is_traversable`: bounds-checked equality test against
`CellType.TRAVERSABLE.value`. -/
def GridMap.is_traversable (g : GridMap) (row col : Int) : Except Err Bool :=
  if g.is_valid_position row col then
    .ok (g.dataAt row col == CellType.TRAVERSABLE.value)
  else
    .error .outOfBounds

/-- `is_cuttable`: equality test against `CellType.CUTTABLE.value`,
with NO bounds check — the bare numpy access `self.data[row, col]`. -/
def GridMap.is_cuttable (g : GridMap) (row col : Int) : Except Err Bool :=
  (g.npGet row col).map (· == CellType.CUTTABLE.value)

/-- `is_non_traversable`: equality test against
`CellType.NON_TRAVERSABLE.value`, with NO bounds check. -/
def GridMap.is_non_traversable (g : GridMap) (row col : Int) : Except Err Bool :=
  (g.npGet row col).map (· == CellType.NON_TRAVERSABLE.value)

/-- Shape invariant established by `__init__`: positive dimensions and a
`rows × cols` data array. -/
def GridMap.WellFormed (g : GridMap) : Prop :=
  0 < g.rows ∧ 0 < g.cols ∧ g.data.length = g.rows.toNat ∧
    ∀ r ∈ g.data, r.length = g.cols.toNat

/-- Python `int(q)` on a real value: truncation toward zero (floor for
non-negative arguments, ceiling for negative ones). -/
def pyInt (q : ℚ) : Int :=
  if 0 ≤ q then ⌊q⌋ else ⌈q⌉

/-- `grid_to_world`: `(row, col) --> (x, y)` with
`x = origin[0] + col * resolution`, `y = origin[1] + row * resolution`. -/
def GridMap.grid_to_world (g : GridMap) (row col : Int) : ℚ × ℚ :=
  (g.origin.1 + col * g.resolution, g.origin.2 + row * g.resolution)

/-- `world_to_grid`: returns the pair
`(int((x - origin[0]) / resolution), int((y - origin[1]) / resolution))`
in exactly that order — the first component is derived from `x` (hence a
column index per `grid_to_world`), the second from `y`. -/
def GridMap.world_to_grid (g : GridMap) (x y : ℚ) : Int × Int :=
  (pyInt ((x - g.origin.1) / g.resolution), pyInt ((y - g.origin.2) / g.resolution))

/-- The Moore offsets in the source's nested-loop order
(`for dr in (-1,0,1): for dc in (-1,0,1)` skipping `(0,0)`). -/
def mooreOffsets : List (Int × Int) :=
  [(-1, -1), (-1, 0), (-1, 1), (0, -1), (0, 1), (1, -1), (1, 0), (1, 1)]

/-- `get_neighbors`: the nested loop over `directions = (-1, 0, 1)`,
appending `(row+dr, col+dc)` whenever it is a valid position; `flatMap`
over the concrete direction list reproduces the loop's append order. -/
def GridMap.get_neighbors (g : GridMap) (row col : Int) : List (Int × Int) :=
  let directions : List Int := [-1, 0, 1]
  directions.flatMap fun dr =>
    directions.flatMap fun dc =>
      if dr = 0 ∧ dc = 0 then []
      else
        let nr := row + dr
        let nc := col + dc
        if g.is_valid_position nr nc then [(nr, nc)] else []

/-- `get_traversable_neighbors`: the source's list comprehension is
`[n for n in self.get_neighbors(row, col) if self.is_traversable(n)]` —
it passes the `(row, col)` tuple as the single positional argument of the
two-argument method `is_traversable`, so the first evaluated predicate
call raises `TypeError`; when the neighbor list is empty the predicate is
never called and the empty list is returned. -/
def GridMap.get_traversable_neighbors (g : GridMap) (row col : Int) :
    Except Err (List (Int × Int)) :=
  match g.get_neighbors row col with
  | [] => .ok []
  | _ :: _ => .error .typeError

/-- `get_cuttable_neighbors`: same tuple-as-single-argument call of
`is_cuttable`, hence the same `TypeError` behavior. -/
def GridMap.get_cuttable_neighbors (g : GridMap) (row col : Int) :
    Except Err (List (Int × Int)) :=
  match g.get_neighbors row col with
  | [] => .ok []
  | _ :: _ => .error .typeError

/-- `get_non_traversable_neighbors`: same tuple-as-single-argument call of
`is_non_traversable`, hence the same `TypeError` behavior. -/
def GridMap.get_non_traversable_neighbors (g : GridMap) (row col : Int) :
    Except Err (List (Int × Int)) :=
  match g.get_neighbors row col with
  | [] => .ok []
  | _ :: _ => .error .typeError

/-- The row-major list of coordinates whose cell equals `t.value` — the
positions that `np.where(self.data == cell_type.value)` indexes, in the
C-order scan numpy uses. -/
def GridMap.matchingCoords (g : GridMap) (t : CellType) : List (Nat × Nat) :=
  (List.range g.data.length).flatMap fun r =>
    (List.range ((g.data.getD r []).length)).filterMap fun c =>
      if (g.data.getD r []).getD c 0 = t.value then some (r, c) else none

/-- `get_all_cells_of_type`: returns `np.where(self.data == cell_type.value)`
— a 2-TUPLE of parallel index arrays `(row_indices, col_indices)` in
row-major scan order, not a list of `(row, col)` pairs (despite the
source's `List[Tuple[int, int]]` annotation). -/
def GridMap.get_all_cells_of_type (g : GridMap) (t : CellType) :
    List Nat × List Nat :=
  ((g.matchingCoords t).map Prod.fst, (g.matchingCoords t).map Prod.snd)

/-- What the spec sentence describes (`Modelled from the spec` for the
refinement comparison of claim C3 only): a sequence of `(row, col)`
coordinate pairs of exactly the cells equal to `t`, in row-major order. -/
def GridMap.allCellsOfTypeSpec (g : GridMap) (t : CellType) : List (Nat × Nat) :=
  g.matchingCoords t

/-- A minimal file-system state for `save`/`load`: the set of existing
directories, the saved `.gm.npy` array dumps and the saved `.gm.json`
metadata dumps, each keyed by a path given as a list of segments
(`Path(dir_path) / name` is path-segment append). -/
structure FileSystem where
  dirs : List (List String)
  npyFiles : List (List String × List (List Nat))
  jsonFiles : List (List String × Metadata)
  deriving Repr

/-- `Path.is_dir()`. -/
def FileSystem.isDir (fs : FileSystem) (p : List String) : Bool :=
  fs.dirs.contains p

/-- `save(dir_path)`: requires a non-empty `metadata["name"]`; target is
`Path(dir_path) / name`; if that directory already exists it raises
before any write, otherwise it creates the directory (`mkdir`; the
creation of missing parents is irrelevant to the claims and elided) and
writes `data.gm.npy` then `metadata.gm.json` inside it.  The state-passing
result pairs the outcome with the file system after the call, so a raise
leaves the file system exactly as it was. -/
def GridMap.save (g : GridMap) (fs : FileSystem) (dir_path : List String) :
    Except Err Unit × FileSystem :=
  if g.metadata.name = "" then
    (.error .invalidState, fs)
  else
    let save_path := dir_path ++ [g.metadata.name]
    if fs.isDir save_path then
      (.error .alreadyExists, fs)
    else
      let fs1 := { fs with dirs := save_path :: fs.dirs }
      let fs2 := { fs1 with
        npyFiles := (save_path ++ ["data.gm.npy"], g.data) :: fs1.npyFiles }
      let fs3 := { fs2 with
        jsonFiles := (save_path ++ ["metadata.gm.json"], g.metadata) :: fs2.jsonFiles }
      (.ok (), fs3)

/-- `load(dir_path)`: requires `dir_path` to be an existing directory,
else raises; then reads `data.gm.npy` into `self.data` and
`metadata.gm.json` into `self.metadata`, assigning nothing else (a
missing artifact surfaces as the runtime's file-not-found error). -/
def GridMap.load (g : GridMap) (fs : FileSystem) (dir_path : List String) :
    Except Err GridMap :=
  if fs.isDir dir_path then
    match fs.npyFiles.lookup (dir_path ++ ["data.gm.npy"]),
        fs.jsonFiles.lookup (dir_path ++ ["metadata.gm.json"]) with
    | some d, some m => .ok { g with data := d, metadata := m }
    | _, _ => .error .notFound
  else
    .error .notFound

/-! Concrete instances used by the evaluation theorems and witnesses. -/

/-- The result of `GridMap(rows=2, cols=2, resolution=1.0, origin=(0,0))`
with the default `NON_TRAVERSABLE` fill. -/
def gTest : GridMap where
  rows := 2
  cols := 2
  resolution := 1
  origin := (0, 0)
  data := [[0, 0], [0, 0]]
  metadata := { name := "", description := "", resolution := 1, origin := (0, 0) }

/-- A 2×2 grid whose cells are `[[NT, T], [C, NT]]`, obtained from `gTest`
by two `set_cell` writes. -/
def gTest2 : GridMap where
  rows := 2
  cols := 2
  resolution := 1
  origin := (0, 0)
  data := [[0, 1], [2, 0]]
  metadata := { name := "", description := "", resolution := 1, origin := (0, 0) }

/-- `gTest` with its name set to `"m"`, as `test_gridmap_save.py` does
before saving. -/
def gNamed : GridMap where
  rows := 2
  cols := 2
  resolution := 1
  origin := (0, 0)
  data := [[0, 0], [0, 0]]
  metadata := { name := "m", description := "", resolution := 1, origin := (0, 0) }

/-- A file system in which the directory `d/m` already exists. -/
def fsTest : FileSystem where
  dirs := [["d", "m"]]
  npyFiles := []
  jsonFiles := []

/-- Metadata as read back from a `metadata.gm.json` dump. -/
def mLoaded : Metadata where
  name := "n"
  description := "desc"
  resolution := 2
  origin := (3, 4)

/-- A file system holding a saved 1×1 grid map under directory `d`. -/
def fsGood : FileSystem where
  dirs := [["d"]]
  npyFiles := [(["d", "data.gm.npy"], [[1]])]
  jsonFiles := [(["d", "metadata.gm.json"], mLoaded)]

/-- `gTest` after loading from `fsGood`: `data` and `metadata` replaced,
every other field untouched (in particular `rows`/`cols` still claim 2×2
although the loaded array is 1×1). -/
def gLoaded : GridMap where
  rows := 2
  cols := 2
  resolution := 1
  origin := (0, 0)
  data := [[1]]
  metadata := mLoaded

/-! Helper lemmas shared by the claim theorems. -/

/-- A successful construction establishes the shape invariant. -/
lemma GridMap.new_wellFormed {rows cols : Int} {resolution : ℚ}
    {origin : ℚ × ℚ} {t : CellType} {g : GridMap}
    (h : GridMap.new rows cols resolution origin t = .ok g) : g.WellFormed := by
  unfold GridMap.new at h
  split at h
  · exact absurd h (by simp)
  · split at h
    · exact absurd h (by simp)
    · rename_i h1 h2
      push_neg at h1
      injection h with h
      subst h
      refine ⟨h1.1, h1.2, by simp, ?_⟩
      intro r hr
      simp only [List.mem_replicate] at hr
      simp [hr.2]

/-- An accumulating loop that appends `[f d]` under a guard on `f d` builds
the filtered image of the list. -/
lemma flatMap_guard_eq_filter_map {A B : Type} (Q : B → Bool) (f : A → B)
    (L : List A) :
    (L.flatMap fun d => if Q (f d) then [f d] else []) = (L.map f).filter Q := by
  induction L with
  | nil => rfl
  | cons a L ih =>
    simp only [List.flatMap_cons, List.map_cons, List.filter_cons, ih]
    split <;> simp_all

/-! Claim theorems. -/

/-- Claim C1: the spec says `world_to_grid(grid_to_world(r, c)) = (r, c)`
for in-bounds `(r, c)`, with `world_to_grid` returning `(row, col)`.  The
source instead returns the `x`-derived component (a column index) first,
so the round trip on the constructed 2×2 grid with resolution 1 and
origin `(0, 0)` maps `(r, c) = (0, 1)` to `(1, 0)`, not `(0, 1)`
(all values exact in binary floating point). -/
theorem world_to_grid_roundtrip_swapped :
    GridMap.new 2 2 1 (0, 0) .NON_TRAVERSABLE = .ok gTest ∧
    gTest.is_valid_position 0 1 = true ∧
    gTest.world_to_grid (gTest.grid_to_world 0 1).1 (gTest.grid_to_world 0 1).2 = (1, 0) ∧
    ((1 : Int), (0 : Int)) ≠ (0, 1) := by
  refine ⟨rfl, by decide, ?_, by decide⟩
  simp [GridMap.world_to_grid, GridMap.grid_to_world, gTest, pyInt]

/-- Claim C2: the spec says the classification-filtered neighbor queries
return the matching subset of `get_neighbors`.  The source passes the
neighbor `(row, col)` tuple as the single positional argument of the
two-argument classification method, so on the constructed 2×2 grid each
of the three queries at `(0, 0)` (which has three neighbors) raises
`TypeError` instead of returning a list. -/
theorem neighbor_filters_raise_type_error :
    GridMap.new 2 2 1 (0, 0) .NON_TRAVERSABLE = .ok gTest ∧
    gTest.get_neighbors 0 0 = [(0, 1), (1, 0), (1, 1)] ∧
    gTest.get_traversable_neighbors 0 0 = .error .typeError ∧
    gTest.get_cuttable_neighbors 0 0 = .error .typeError ∧
    gTest.get_non_traversable_neighbors 0 0 = .error .typeError :=
  ⟨rfl, rfl, rfl, rfl, rfl⟩

/-- Claim C3: the spec says `get_all_cells_of_type(T)` returns a sequence
of `(row, col)` pairs.  The source returns `np.where`'s 2-tuple of
parallel index arrays: on the grid `[[NT, T], [C, NT]]` querying
`CUTTABLE` yields `([1], [0])` — only the element-wise zip of the two
returned arrays is the claimed pair sequence `[(1, 0)]`. -/
theorem get_all_cells_of_type_parallel_arrays :
    gTest2.get_all_cells_of_type .CUTTABLE = ([1], [0]) ∧
    gTest2.allCellsOfTypeSpec .CUTTABLE = [(1, 0)] ∧
    (gTest2.get_all_cells_of_type .CUTTABLE).1.zip
      (gTest2.get_all_cells_of_type .CUTTABLE).2 = gTest2.allCellsOfTypeSpec .CUTTABLE ∧
    gTest2.allCellsOfTypeSpec .TRAVERSABLE = [(0, 1)] ∧
    gTest2.get_all_cells_of_type .TRAVERSABLE = ([0], [1]) :=
  ⟨rfl, rfl, rfl, rfl, rfl⟩

/-- Claim C4: outside `[0, rows) × [0, cols)` the bounds-checked accessors
`get_cell`, `set_cell` and `is_traversable` fail with `OutOfBounds`,
while `is_cuttable` and `is_non_traversable` perform no bounds check and
never produce `OutOfBounds` (their bare numpy access either wraps a
negative in-range index or raises numpy's own `IndexError`). -/
theorem bounds_check_contract (g : GridMap) (row col : Int) (t : CellType)
    (h : g.is_valid_position row col = false) :
    g.get_cell row col = .error .outOfBounds ∧
    g.set_cell row col t = .error .outOfBounds ∧
    g.is_traversable row col = .error .outOfBounds ∧
    g.is_cuttable row col ≠ .error .outOfBounds ∧
    g.is_non_traversable row col ≠ .error .outOfBounds := by
  refine ⟨?_, ?_, ?_, ?_, ?_⟩
  · simp [GridMap.get_cell, h]
  · simp [GridMap.set_cell, h]
  · simp [GridMap.is_traversable, h]
  · simp only [GridMap.is_cuttable, GridMap.npGet]
    split
    · simp [Except.map]
    · simp [Except.map]
  · simp only [GridMap.is_non_traversable, GridMap.npGet]
    split
    · simp [Except.map]
    · simp [Except.map]

/-- Claim C4 witness: the contract evaluated at position `(5, 5)` of the
2×2 grid `gTest`. -/
theorem bounds_check_contract_witness :
    gTest.is_valid_position 5 5 = false ∧
    (gTest.get_cell 5 5 = .error .outOfBounds ∧
     gTest.set_cell 5 5 .CUTTABLE = .error .outOfBounds ∧
     gTest.is_traversable 5 5 = .error .outOfBounds ∧
     gTest.is_cuttable 5 5 ≠ .error .outOfBounds ∧
     gTest.is_non_traversable 5 5 ≠ .error .outOfBounds) :=
  ⟨by decide, bounds_check_contract gTest 5 5 .CUTTABLE (by decide)⟩

/-- Claim C5: for a position with a negative in-range index (each index in
`[-n, n)` for its axis, at least one negative), `is_cuttable` and
`is_non_traversable` do not fail: they return the classification test of
the index-wrapped cell `(row mod rows, col mod cols)`. -/
theorem negative_index_wraps (g : GridMap) (row col : Int)
    (hin : -g.rows ≤ row ∧ row < g.rows ∧ -g.cols ≤ col ∧ col < g.cols)
    (_hneg : row < 0 ∨ col < 0) :
    g.is_cuttable row col =
      .ok (g.dataAt (row.emod g.rows) (col.emod g.cols) == CellType.CUTTABLE.value) ∧
    g.is_non_traversable row col =
      .ok (g.dataAt (row.emod g.rows) (col.emod g.cols) == CellType.NON_TRAVERSABLE.value) := by
  constructor
  · simp [GridMap.is_cuttable, GridMap.npGet, hin, Except.map]
  · simp [GridMap.is_non_traversable, GridMap.npGet, hin, Except.map]

/-- Claim C5 witness: on the grid `[[NT, T], [C, NT]]`, row index `-1`
wraps to row `1`, whose column 0 holds `CUTTABLE`, so
`is_cuttable (-1) 0` succeeds with `true`. -/
theorem negative_index_wraps_witness :
    (gTest2.is_cuttable (-1) 0 =
      .ok (gTest2.dataAt ((-1 : Int).emod gTest2.rows) ((0 : Int).emod gTest2.cols) ==
        CellType.CUTTABLE.value) ∧
     gTest2.is_non_traversable (-1) 0 =
      .ok (gTest2.dataAt ((-1 : Int).emod gTest2.rows) ((0 : Int).emod gTest2.cols) ==
        CellType.NON_TRAVERSABLE.value)) ∧
    gTest2.is_cuttable (-1) 0 = .ok true :=
  ⟨negative_index_wraps gTest2 (-1) 0 ⟨by decide, by decide, by decide, by decide⟩
      (Or.inl (by decide)), rfl⟩

/-- Claim C6: on a constructed (well-formed) grid, writing a cell type at
a valid position and reading the same position back returns exactly that
cell type's stored value. -/
theorem set_then_get (g : GridMap) (hg : g.WellFormed) (row col : Int)
    (t : CellType) (hv : g.is_valid_position row col = true) :
    ∃ g', g.set_cell row col t = .ok g' ∧ g'.get_cell row col = .ok t.value := by
  obtain ⟨hr, hc, hlen, hrows⟩ := hg
  simp only [GridMap.is_valid_position, Bool.and_eq_true, decide_eq_true_eq] at hv
  obtain ⟨⟨⟨h0r, hltr⟩, h0c⟩, hltc⟩ := hv
  have hrn : row.toNat < g.data.length := by omega
  have hset : g.set_cell row col t = .ok { g with
      data := g.data.set row.toNat ((g.data.getD row.toNat []).set col.toNat t.value) } := by
    simp [GridMap.set_cell, GridMap.is_valid_position, h0r, hltr, h0c, hltc]
  refine ⟨_, hset, ?_⟩
  have hget : (g.data.set row.toNat ((g.data.getD row.toNat []).set col.toNat t.value)).getD
      row.toNat [] = (g.data.getD row.toNat []).set col.toNat t.value := by
    rw [List.getD_eq_getElem?_getD, List.getElem?_set_self (by simpa using hrn)]
    rfl
  have hcol : col.toNat < (g.data.getD row.toNat []).length := by
    have hmem : g.data.getD row.toNat [] ∈ g.data := by
      rw [List.getD_eq_getElem?_getD, List.getElem?_eq_getElem hrn]
      exact List.getElem_mem hrn
    rw [hrows _ hmem]
    omega
  simp only [GridMap.get_cell, GridMap.is_valid_position, GridMap.dataAt, h0r, hltr, h0c, hltc,
    hget]
  rw [List.getD_eq_getElem?_getD, List.getElem?_set_self (by simpa using hcol)]
  rfl

/-- Claim C6 witness: on `gTest`, setting `(0, 1)` to `CUTTABLE` and
reading it back yields `CUTTABLE`'s value. -/
theorem set_then_get_witness :
    gTest.WellFormed ∧ gTest.is_valid_position 0 1 = true ∧
    ∃ g', gTest.set_cell 0 1 .CUTTABLE = .ok g' ∧
      g'.get_cell 0 1 = .ok CellType.CUTTABLE.value :=
  ⟨by unfold GridMap.WellFormed; decide, by decide,
   set_then_get gTest (by unfold GridMap.WellFormed; decide) 0 1 .CUTTABLE (by decide)⟩

/-- Claim C7: `get_neighbors` returns exactly the Moore offsets of
`(row, col)` that satisfy `is_valid_position`, in the fixed enumeration
order `(-1,-1), (-1,0), (-1,1), (0,-1), (0,1), (1,-1), (1,0), (1,1)` with
out-of-bounds entries skipped, with no duplicates, never containing
`(row, col)` itself, and with no classification filtering. -/
theorem get_neighbors_spec (g : GridMap) (row col : Int) :
    g.get_neighbors row col =
      (mooreOffsets.map fun d => (row + d.1, col + d.2)).filter
        (fun p => g.is_valid_position p.1 p.2) ∧
    (g.get_neighbors row col).Nodup ∧
    (row, col) ∉ g.get_neighbors row col := by
  have h1 : g.get_neighbors row col = mooreOffsets.flatMap fun d =>
      if g.is_valid_position (row + d.1) (col + d.2) then [(row + d.1, col + d.2)]
      else [] := by
    simp only [GridMap.get_neighbors, mooreOffsets, List.flatMap_cons, List.flatMap_nil]
    norm_num
  have heq : g.get_neighbors row col =
      (mooreOffsets.map fun d => (row + d.1, col + d.2)).filter
        (fun p => g.is_valid_position p.1 p.2) := by
    rw [h1]
    exact flatMap_guard_eq_filter_map (fun p => g.is_valid_position p.1 p.2)
      (fun d => (row + d.1, col + d.2)) mooreOffsets
  refine ⟨heq, ?_, ?_⟩
  · rw [heq]
    apply List.Nodup.filter
    apply List.Nodup.map
    · intro a b hab
      simp only [Prod.mk.injEq] at hab
      exact Prod.ext (by omega) (by omega)
    · decide
  · rw [heq]
    intro hmem
    simp only [List.mem_filter, List.mem_map, mooreOffsets] at hmem
    obtain ⟨⟨d, hd, hde⟩, _⟩ := hmem
    simp only [List.mem_cons, List.not_mem_nil, or_false] at hd
    have h2 : row + d.1 = row ∧ col + d.2 = col :=
      ⟨congrArg Prod.fst hde, congrArg Prod.snd hde⟩
    rcases hd with h | h | h | h | h | h | h | h <;> subst h <;> simp at h2

/-- Claim C8: `save` fails with `InvalidState` when `metadata.name` is
empty; otherwise its target directory is `dir_path/metadata.name`, and
when that directory already exists it fails with `AlreadyExists`, leaving
the file system untouched. -/
theorem save_checks_name_and_target (g : GridMap) (fs : FileSystem)
    (dir_path : List String) :
    (g.metadata.name = "" → g.save fs dir_path = (.error .invalidState, fs)) ∧
    (g.metadata.name ≠ "" →
      fs.isDir (dir_path ++ [g.metadata.name]) = true →
      g.save fs dir_path = (.error .alreadyExists, fs)) := by
  constructor
  · intro h
    simp [GridMap.save, h]
  · intro h hdir
    simp [GridMap.save, h, hdir]

/-- Claim C8 witness: an unnamed map fails with `InvalidState`; the map
named `m` saved into `d` while `d/m` already exists fails with
`AlreadyExists`, both returning the file system unchanged. -/
theorem save_checks_name_and_target_witness :
    (gTest.save fsTest ["d"] = (.error .invalidState, fsTest)) ∧
    (gNamed.save fsTest ["d"] = (.error .alreadyExists, fsTest)) :=
  ⟨(save_checks_name_and_target gTest fsTest ["d"]).1 rfl,
   (save_checks_name_and_target gNamed fsTest ["d"]).2 (by decide) rfl⟩

/-- Claim C9: `load` fails with `NotFound` when `dir_path` is not an
existing directory; on success it replaces only `data` and `metadata`
with the two artifacts read from the directory, leaving `rows`, `cols`,
`resolution` and `origin` exactly as they were (no recomputation from the
loaded array shape). -/
theorem load_not_found_and_frame (g : GridMap) (fs : FileSystem)
    (dir_path : List String) :
    (fs.isDir dir_path = false → g.load fs dir_path = .error .notFound) ∧
    (∀ g', g.load fs dir_path = .ok g' →
      g'.rows = g.rows ∧ g'.cols = g.cols ∧ g'.resolution = g.resolution ∧
        g'.origin = g.origin ∧
        fs.npyFiles.lookup (dir_path ++ ["data.gm.npy"]) = some g'.data ∧
        fs.jsonFiles.lookup (dir_path ++ ["metadata.gm.json"]) = some g'.metadata) := by
  constructor
  · intro h
    simp [GridMap.load, h]
  · intro g' h
    unfold GridMap.load at h
    split at h
    · split at h
      · rename_i d m hd
        injection h with h
        subst h
        simp_all
      · exact absurd h (by simp)
    · exact absurd h (by simp)

/-- Claim C9 witness: loading a missing directory fails with `NotFound`;
loading the saved 1×1 map from `fsGood` into the 2×2 `gTest` replaces
`data`/`metadata` and keeps `rows = 2`, `cols = 2`, the resolution and
the origin, although the loaded array is 1×1. -/
theorem load_not_found_and_frame_witness :
    gTest.load fsGood ["nope"] = .error .notFound ∧
    (gLoaded.rows = gTest.rows ∧ gLoaded.cols = gTest.cols ∧
      gLoaded.resolution = gTest.resolution ∧ gLoaded.origin = gTest.origin ∧
      fsGood.npyFiles.lookup (["d"] ++ ["data.gm.npy"]) = some gLoaded.data ∧
      fsGood.jsonFiles.lookup (["d"] ++ ["metadata.gm.json"]) = some gLoaded.metadata) :=
  ⟨(load_not_found_and_frame gTest fsGood ["nope"]).1 rfl,
   (load_not_found_and_frame gTest fsGood ["d"]).2 gLoaded rfl⟩

/-- Claim C10: construction fails with `InvalidArgument` when
`rows <= 0`, `cols <= 0` or `resolution <= 0` (in particular `rows = 0`
fails), and otherwise allocates a `rows × cols` array with every cell
equal to the default cell type. -/
theorem new_validates_and_fills (rows cols : Int) (resolution : ℚ)
    (origin : ℚ × ℚ) (t : CellType) :
    ((rows ≤ 0 ∨ cols ≤ 0 ∨ resolution ≤ 0) →
      GridMap.new rows cols resolution origin t = .error .invalidArgument) ∧
    (0 < rows → 0 < cols → 0 < resolution →
      ∃ g, GridMap.new rows cols resolution origin t = .ok g ∧
        g.data.length = rows.toNat ∧
        (∀ r ∈ g.data, r.length = cols.toNat) ∧
        (∀ r ∈ g.data, ∀ v ∈ r, v = t.value)) := by
  constructor
  · intro h
    unfold GridMap.new
    split_ifs with h1 h2
    · rfl
    · rfl
    · exfalso
      push_neg at h1
      rcases h with h | h | h
      · omega
      · omega
      · exact h2 h
  · intro hr hc hres
    unfold GridMap.new
    split_ifs with h1 h2
    · exfalso; rcases h1 with h | h <;> omega
    · exact absurd h2 (not_le.mpr hres)
    · refine ⟨_, rfl, by simp, ?_, ?_⟩
      · intro r hrm
        simp only [List.mem_replicate] at hrm
        simp [hrm.2]
      · intro r hrm v hv
        simp only [List.mem_replicate] at hrm
        rw [hrm.2] at hv
        exact List.eq_of_mem_replicate hv

/-- Claim C10 witness: `rows = 0` fails with `InvalidArgument`, and the
2×2 construction succeeds with a fully default-filled array. -/
theorem new_validates_and_fills_witness :
    (GridMap.new 0 2 1 (0, 0) .NON_TRAVERSABLE = .error .invalidArgument) ∧
    (∃ g, GridMap.new 2 2 1 (0, 0) .NON_TRAVERSABLE = .ok g ∧
      g.data.length = (2 : Int).toNat ∧
      (∀ r ∈ g.data, r.length = (2 : Int).toNat) ∧
      (∀ r ∈ g.data, ∀ v ∈ r, v = CellType.NON_TRAVERSABLE.value)) :=
  ⟨(new_validates_and_fills 0 2 1 (0, 0) .NON_TRAVERSABLE).1 (Or.inl (by decide)),
   (new_validates_and_fills 2 2 1 (0, 0) .NON_TRAVERSABLE).2 (by decide) (by decide)
     (by norm_num)⟩

end GridPlanner
